import Mathlib

/-!
Verification of the `logging` package of crazy1997/elk_go_example (the
asynchronous ELK log shipper). The Go source is shallowly embedded:
ambient effects (the stack introspection `runtime.Caller`, the clock,
`runtime.Version`, environment variables, and the outcomes of the fallible
dispatch steps) are passed as explicit parameters, and the package-level
mutable state (`loggerInstance`, `once`) is threaded as an explicit state
value.
-/

namespace ELK

/-- A structured field value (Go `interface{}` as used by this repository:
strings, integers, booleans). -/
inductive GoValue where
  | str (s : String)
  | num (n : Int)
  | boolean (b : Bool)
  deriving Repr, DecidableEq

/-- A Go `map[string]interface{}` value, modelled as an association list with
unique keys kept in insertion order (Go map iteration order is unspecified;
none of the verified properties depend on the order). -/
abbrev Fields := List (String × GoValue)

/-- Go map assignment `m[k] = v`: replace the binding if the key is present,
otherwise append it. -/
def fset (m : Fields) (k : String) (v : GoValue) : Fields :=
  if (m.lookup k).isSome then
    m.map (fun p => if p.1 = k then (k, v) else p)
  else
    m ++ [(k, v)]

/-- The `ELKLogger` struct (part_000 lines 15–23). The `httpClient` transport
configuration (5s timeout, pool limits) and the mutex carry no state the
verified claims depend on and are kept as the constants below. -/
structure ELKLogger where
  logstashURL : String
  serviceName : String
  environment : String
  hostname : String
  serverIP : String
  deriving Repr, DecidableEq

/-- `http.Client{Timeout: 5 * time.Second}` (line 58). -/
def httpClientTimeoutSeconds : Nat := 5

/-- The `LogEntry` struct (lines 30–40). `fields` is `none` when the Go map
is nil; every other member is a string. JSON tags: `@timestamp`, `level`,
`service`, `message`, `fields,omitempty`, `environment`, `host`,
`server_ip`, `go_version`. -/
structure LogEntry where
  timestamp : String
  level : String
  service : String
  message : String
  fields : Option Fields
  environment : String
  host : String
  serverIP : String
  goVersion : String
  deriving Repr, DecidableEq

/-- One resolved stack frame: the file and line `runtime.Caller` reports. -/
structure Frame where
  file : String
  line : Nat
  deriving Repr, DecidableEq

/-- `fmt.Sprintf("%s:%d", file, line)` (line 140). -/
def formatCaller (fr : Frame) : String := fr.file ++ ":" ++ toString fr.line

/-- `runtime.Caller(skip)` over an explicit stack, innermost frame first:
index 0 is the function that invoked `runtime.Caller`; the call fails
(`ok = false`) when `skip` is at or past the end of the stack. -/
def runtimeCaller (stack : List Frame) (skip : Nat) : Option Frame :=
  stack.get? skip

/-- The stack on which `createLogEntry` executes. `Log` (line 96) launches
`go l.sendLogAsync(...)`, so the goroutine running `sendLogAsync` has no
caller frames above it: when `createLogEntry` (called at line 103) invokes
`runtime.Caller`, the frames are, innermost first, `createLogEntry`
(the `runtime.Caller` call at line 138), `sendLogAsync` (its call site at
line 103), and the goroutine base `runtime.goexit` — and nothing above. -/
def dispatchGoroutineStack : List Frame :=
  [⟨"logging/logger.go", 138⟩, ⟨"logging/logger.go", 103⟩, ⟨"runtime/asm.s", 0⟩]

/-- `createLogEntry` (lines 132–153). `callerRes` is the result of the
`runtime.Caller(3)` call at line 138 (`some` iff `ok`); `now` is
`time.Now().UTC().Format(time.RFC3339Nano)` and `goVer` is
`runtime.Version()`. Go maps are reference values, so the assignment
`fields["caller"] = ...` at line 140 mutates the caller-supplied map in
place when that map is non-nil; the second component of the result is the
state of the caller's map variable after the call (`none` when the caller
passed nil, since line 134 rebinds only the local parameter).
The composite literal at lines 143–152 does not set `ServerIP`, so that
member keeps the Go zero value `""`. -/
def createLogEntry (l : ELKLogger) (level message : String)
    (fields : Option Fields) (callerRes : Option Frame)
    (now goVer : String) : LogEntry × Option Fields :=
  let m0 : Fields := fields.getD []
  let m1 : Fields :=
    match callerRes with
    | some fr => fset m0 "caller" (GoValue.str (formatCaller fr))
    | none => m0
  ({ timestamp := now
     level := level
     service := l.serviceName
     message := message
     fields := some m1
     environment := l.environment
     host := l.hostname
     serverIP := ""
     goVersion := goVer },
   match fields with
   | some _ => some m1
   | none => none)

/-- One member of the serialized JSON document: a string, or the nested
object serializing the fields map. -/
inductive Jmember where
  | jstr (s : String)
  | jobj (m : Fields)
  deriving Repr, DecidableEq

/-- `json.Marshal` of a `LogEntry`, as the ordered list of members of the
produced JSON object. Members follow struct order and tags (lines 30–40);
`fields` carries `omitempty`, and for a Go map `omitempty` drops the member
when the map is nil or has length 0. -/
def LogEntry.jsonDoc (e : LogEntry) : List (String × Jmember) :=
  [("@timestamp", Jmember.jstr e.timestamp),
   ("level", Jmember.jstr e.level),
   ("service", Jmember.jstr e.service),
   ("message", Jmember.jstr e.message)]
  ++ (match e.fields with
      | some m => if m.isEmpty then [] else [("fields", Jmember.jobj m)]
      | none => [])
  ++ [("environment", Jmember.jstr e.environment),
      ("host", Jmember.jstr e.host),
      ("server_ip", Jmember.jstr e.serverIP),
      ("go_version", Jmember.jstr e.goVersion)]

/-- The ANSI color chosen by `logToConsole` (lines 156–166). -/
def consoleColor (level : String) : String :=
  if level = "ERROR" then "\x1b[31m"
  else if level = "WARN" then "\x1b[33m"
  else if level = "INFO" then "\x1b[32m"
  else if level = "DEBUG" then "\x1b[36m"
  else "\x1b[0m"

/-- `%v` formatting of a field value. -/
def GoValue.show : GoValue → String
  | .str s => s
  | .num n => toString n
  | .boolean b => cond b "true" "false"

/-- `%-5s`: left-justify in a field of width 5. -/
def padLevel (s : String) : String :=
  s ++ String.mk (List.replicate (5 - s.length) ' ')

/-- `logToConsole` (lines 155–178): the single line written to standard
output. `consoleTime` is `time.Now().Format("15:04:05.000")`; the fields
part is appended only when the map has at least one entry (a nil map has
length 0). -/
def logToConsole (level message : String) (fields : Option Fields)
    (consoleTime : String) : String :=
  let m := fields.getD []
  let base := consoleColor level ++ "[" ++ consoleTime ++ "] "
    ++ padLevel level ++ " " ++ message ++ "\x1b[0m"
  if m.length > 0 then
    base ++ " | " ++ String.join (m.map fun p => p.1 ++ "=" ++ p.2.show ++ " ")
  else
    base

/-- What a single `Log` call does on the caller's execution context
(lines 95–100): whether a shipping goroutine (`go l.sendLogAsync(...)`)
was launched, and the console lines written synchronously. -/
structure LogEffects where
  shipAttempted : Bool
  consoleLines : List String
  deriving Repr, DecidableEq

/-- `Log` (lines 95–100): always spawns one dispatch goroutine and writes
one console line; it returns nothing, and nothing of the dispatch outcome
is consumed on the caller's path. -/
def Log (l : ELKLogger) (level message : String) (fields : Option Fields)
    (consoleTime : String) : LogEffects :=
  { shipAttempted := true
    consoleLines := [logToConsole level message fields consoleTime] }

/-- The `Debug` method (lines 193–197): delegates to `Log` with level
`"DEBUG"` only when the environment tag is `"development"`, and otherwise
does nothing at all. -/
def ELKLogger.Debug (l : ELKLogger) (message : String)
    (fields : Option Fields) (consoleTime : String) : LogEffects :=
  if l.environment = "development" then
    Log l "DEBUG" message fields consoleTime
  else
    { shipAttempted := false, consoleLines := [] }

/-- Outcome of `httpClient.Do` (line 119): a transport error, or a response
carrying a status code. -/
inductive TransportRes where
  | transportErr (e : String)
  | response (status : Nat)
  deriving Repr, DecidableEq

/-- Ambient outcomes of the fallible steps of one dispatch:
`json.Marshal` (line 105), `http.NewRequest` (line 111), and
`httpClient.Do` (line 119). -/
structure DispatchWorld where
  marshalErr : Option String
  requestErr : Option String
  transportRes : TransportRes
  deriving Repr, DecidableEq

/-- Observable outcome of one `sendLogAsync` run: the lines written to the
local error stream (stderr), and the bodies of the POST requests issued
through `httpClient.Do`. -/
structure DispatchResult where
  stderrLines : List String
  posts : List (List (String × Jmember))
  deriving Repr, DecidableEq

/-- `sendLogAsync` (lines 102–130): builds the entry, then at each failure
writes one line to stderr and returns; a response status at or above 400
is reported to stderr, any lower status is ignored and the body discarded.
The function returns normally in every case and makes at most one POST. -/
def sendLogAsync (l : ELKLogger) (level message : String)
    (fields : Option Fields) (callerRes : Option Frame)
    (now goVer : String) (w : DispatchWorld) : DispatchResult :=
  let entry := (createLogEntry l level message fields callerRes now goVer).1
  match w.marshalErr with
  | some e => ⟨["Failed to marshal log: " ++ e], []⟩
  | none =>
    match w.requestErr with
    | some e => ⟨["Failed to create log request: " ++ e], []⟩
    | none =>
      match w.transportRes with
      | .transportErr e =>
        ⟨["Failed to send log to ELK: " ++ e], [entry.jsonDoc]⟩
      | .response status =>
        if 400 ≤ status then
          ⟨["Logstash returned error: " ++ toString status], [entry.jsonDoc]⟩
        else
          ⟨[], [entry.jsonDoc]⟩

/-- One full `Log` call together with the dispatch goroutine it spawned:
the caller-visible effects and the dispatch's outcome. The dispatch runs
`sendLogAsync` on `dispatchGoroutineStack`, so its `runtime.Caller(3)`
result is `runtimeCaller dispatchGoroutineStack 3`. -/
def LogRun (l : ELKLogger) (level message : String) (fields : Option Fields)
    (now goVer consoleTime : String) (w : DispatchWorld) :
    LogEffects × DispatchResult :=
  (Log l level message fields consoleTime,
   sendLogAsync l level message fields
     (runtimeCaller dispatchGoroutineStack 3) now goVer w)

/-- The process environment: `none` for an unset variable. -/
abbrev OSEnv := String → Option String

/-- `os.Getenv`: the empty string when the variable is unset. -/
def getenv (e : OSEnv) (k : String) : String := (e k).getD ""

/-- The package-level mutable state: `loggerInstance` (line 26) and whether
the `sync.Once` (line 27) has already run its body. -/
structure GlobalState where
  loggerInstance : Option ELKLogger
  onceDone : Bool
  deriving Repr, DecidableEq

/-- The state before any call: nil instance, once not yet run. -/
def initialState : GlobalState := ⟨none, false⟩

/-- The construction inside `once.Do` (lines 44–73): hostname from
`os.Hostname()`, server IP from `SERVER_IP` with the compiled-in default
`"147.45.183.143"` when empty, the fixed Logstash URL, service name
`"go-api"`, environment from `ENVIRONMENT` with default `"production"`
when empty. -/
def buildLogger (env : OSEnv) (hostname : String) : ELKLogger :=
  let serverIP0 := getenv env "SERVER_IP"
  let serverIP := if serverIP0 = "" then "147.45.183.143" else serverIP0
  let logstashURL := "http://logstash:5000"
  let l0 : ELKLogger :=
    { logstashURL := logstashURL
      serviceName := "go-api"
      environment := getenv env "ENVIRONMENT"
      hostname := hostname
      serverIP := serverIP }
  if l0.environment = "" then { l0 with environment := "production" } else l0

/-- A `Log` invocation recorded as (level, message, fields). -/
abbrev LogCall := String × String × Fields

/-- The fields map of the self-test entry (lines 76–81). -/
def selfTestFields (serverIP logstashURL environment hostname : String) :
    Fields :=
  [("server_ip", GoValue.str serverIP),
   ("logstash_url", GoValue.str logstashURL),
   ("environment", GoValue.str environment),
   ("hostname", GoValue.str hostname)]

/-- `InitLogger` (lines 42–85). `sync.Once` runs the body exactly once:
a later call leaves the state alone and emits nothing. The first call
builds the logger, stores it, and emits the one INFO self-test `Log` call
of lines 76–81; the function returns `loggerInstance` (a `sync.Once`
serializes concurrent first calls, so concurrent invocation is modelled
as iterating this transition). -/
def InitLogger (env : OSEnv) (hostname : String) (s : GlobalState) :
    GlobalState × Option ELKLogger × List LogCall :=
  if s.onceDone then
    (s, s.loggerInstance, [])
  else
    let l := buildLogger env hostname
    (⟨some l, true⟩, some l,
     [("INFO", "Logger initialized on production server",
       selfTestFields l.serverIP l.logstashURL l.environment l.hostname)])

/-- Iterate `InitLogger` `n` times, collecting every returned pointer and
every emitted self-test call. -/
def initRuns (env : OSEnv) (hostname : String) :
    Nat → GlobalState → GlobalState × List (Option ELKLogger) × List LogCall
  | 0, s => (s, [], [])
  | n + 1, s =>
    let r := InitLogger env hostname s
    let rest := initRuns env hostname n r.1
    (rest.1, r.2.1 :: rest.2.1, r.2.2 ++ rest.2.2)

/-- The result of `GetLogger` (lines 88–93): a panic that aborts the
calling goroutine, or the instance. -/
inductive GetLoggerResult where
  | panicked (msg : String)
  | ok (l : ELKLogger)
  deriving Repr, DecidableEq

/-- `GetLogger` (lines 88–93): panics when `loggerInstance` is nil,
otherwise returns it. -/
def GetLogger (s : GlobalState) : GetLoggerResult :=
  match s.loggerInstance with
  | none => .panicked "Logger not initialized. Call InitLogger first"
  | some l => .ok l

/-- A concrete logger (default configuration: every variable unset) used to
evaluate the definitions at explicit inputs. -/
def sampleLogger : ELKLogger := buildLogger (fun _ => none) "samplehost"

/-- In every serialized entry the `server_ip` member is present and carries
the entry's `serverIP` value (no `omitempty` on that member). -/
theorem jsonDoc_server_ip (e : LogEntry) :
    e.jsonDoc.lookup "server_ip" = some (Jmember.jstr e.serverIP) := by
  rcases e with ⟨t, lv, sv, ms, f, en, ho, ip, gv⟩
  rcases f with _ | m
  · simp [LogEntry.jsonDoc, List.lookup]
  · by_cases hm : m.isEmpty <;> simp [LogEntry.jsonDoc, List.lookup, hm]

/-- C1 (refuted: code bug). The configured server IP is stored in the
singleton (`buildLogger` puts the `SERVER_IP` override or the compiled-in
default `"147.45.183.143"` into `serverIP`), but the composite literal in
`createLogEntry` never copies `l.serverIP` into the entry: the entry's
`serverIP` member is always the Go zero value `""`, so the shipped JSON
document's `server_ip` member is `""` and not the configured IP. -/
theorem serverIP_not_copied (l : ELKLogger) (level message : String)
    (fields : Option Fields) (callerRes : Option Frame) (now goVer : String) :
    ((createLogEntry l level message fields callerRes now goVer).1).serverIP = ""
    ∧ ((createLogEntry l level message fields callerRes now goVer).1).jsonDoc.lookup
        "server_ip" = some (Jmember.jstr "")
    ∧ sampleLogger.serverIP = "147.45.183.143" := by
  refine ⟨rfl, ?_, rfl⟩
  have h := jsonDoc_server_ip (createLogEntry l level message fields callerRes now goVer).1
  simpa using h

/-- C2 (refuted: code bug). `createLogEntry` executes at the base of the
goroutine spawned by `Log` (`go l.sendLogAsync(...)`), whose stack above
the `runtime.Caller` call holds only `sendLogAsync` and the goroutine base
`runtime.goexit`; `runtime.Caller(3)` therefore always fails, the `caller`
key is never recorded, and the entry's fields map is exactly the
caller-supplied map (empty when nil). -/
theorem caller_never_recorded (l : ELKLogger) (level message : String)
    (fields : Option Fields) (now goVer : String) :
    runtimeCaller dispatchGoroutineStack 3 = none
    ∧ ((createLogEntry l level message fields
        (runtimeCaller dispatchGoroutineStack 3) now goVer).1).fields
      = some (fields.getD []) := by
  exact ⟨rfl, rfl⟩

/-- C3 (counterexample). When caller-location resolution succeeds,
`createLogEntry` writes the synthesized `caller` key into the
caller-supplied map (Go maps are reference values): the caller's non-nil
map is not left unchanged by constructing the entry. -/
theorem createLogEntry_mutates_counterexample :
    (createLogEntry sampleLogger "INFO" "m"
      (some [("a", GoValue.str "b")]) (some ⟨"api.go", 10⟩) "t0" "go1.22").2
    ≠ some [("a", GoValue.str "b")] := by
  decide

/-- C3 (amended). Entry construction has no side effect beyond the
caller-location lookup and the clock read except one: when resolution
succeeds and the caller supplied a non-nil map, the synthesized `caller`
key is written into that map. When resolution fails — as it always does on
this program's dispatch path, see `caller_never_recorded` — the caller's
map is left unchanged, and a nil caller map is never replaced from the
caller's point of view. -/
theorem createLogEntry_mutation (l : ELKLogger) (level message : String)
    (m : Fields) (fr : Frame) (now goVer : String) :
    (createLogEntry l level message (some m) none now goVer).2 = some m
    ∧ (createLogEntry l level message (some m) (some fr) now goVer).2
      = some (fset m "caller" (GoValue.str (formatCaller fr)))
    ∧ (createLogEntry l level message none (some fr) now goVer).2 = none := by
  exact ⟨rfl, rfl, rfl⟩

/-- C5. With an absent (nil) caller fields map the constructed entry's map
is non-null in every case, and when caller-location resolution succeeds it
contains exactly the synthesized `caller` key and nothing else. -/
theorem nil_fields_entry (l : ELKLogger) (level message : String)
    (fr : Frame) (callerRes : Option Frame) (now goVer : String) :
    ((createLogEntry l level message none callerRes now goVer).1).fields ≠ none
    ∧ ((createLogEntry l level message none (some fr) now goVer).1).fields
      = some [("caller", GoValue.str (formatCaller fr))] := by
  constructor
  · cases callerRes <;> simp [createLogEntry]
  · rfl

/-- C10. When the constructed entry's fields map is empty — which happens
exactly when the caller supplies no fields (or an empty map) and
caller-location resolution fails — the serialized JSON document omits the
`fields` member entirely rather than containing an empty object. -/
theorem empty_fields_omitted (l : ELKLogger) (level message now goVer : String) :
    ((createLogEntry l level message none none now goVer).1).fields = some []
    ∧ ((createLogEntry l level message none none now goVer).1).jsonDoc.lookup
        "fields" = none
    ∧ ((createLogEntry l level message (some []) none now goVer).1).jsonDoc.lookup
        "fields" = none := by
  refine ⟨rfl, ?_, ?_⟩ <;> simp [createLogEntry, LogEntry.jsonDoc, List.lookup]

/-- C4. The debug wrapper dispatches — one console line is written and one
shipping goroutine is spawned — exactly when the resolved environment tag
equals `"development"`; in any other environment the call is dropped with
no console output and no shipping attempt. -/
theorem Debug_iff_development (l : ELKLogger) (message : String)
    (fields : Option Fields) (consoleTime : String) :
    (l.Debug message fields consoleTime
      = if l.environment = "development"
        then Log l "DEBUG" message fields consoleTime
        else ⟨false, []⟩)
    ∧ (((l.Debug message fields consoleTime).shipAttempted = true
        ∨ (l.Debug message fields consoleTime).consoleLines ≠ [])
      ↔ l.environment = "development") := by
  constructor
  · rfl
  · by_cases h : l.environment = "development" <;>
      simp [ELKLogger.Debug, Log, h]

/-- A dispatch in which every step succeeds and the sink answers 200. -/
def worldOk : DispatchWorld := ⟨none, none, .response 200⟩

/-- A dispatch in which the sink answers 500. -/
def world500 : DispatchWorld := ⟨none, none, .response 500⟩

/-- C6. Any failure of a dispatch — serialization, request construction,
transport, or a response status at or above 400 — is reported as exactly
one stderr line, the single attempt is never retried (at most one POST is
issued), and the caller-visible result of the issuing `Log` call is
independent of the dispatch outcome; on a response below 400 nothing is
reported. -/
theorem dispatch_failures_local (l : ELKLogger) (level message : String)
    (fields : Option Fields) (callerRes : Option Frame)
    (now goVer consoleTime : String) (w w2 : DispatchWorld) :
    (LogRun l level message fields now goVer consoleTime w).1
      = (LogRun l level message fields now goVer consoleTime w2).1
    ∧ (sendLogAsync l level message fields callerRes now goVer w).posts.length ≤ 1
    ∧ (∀ e, w.marshalErr = some e →
        sendLogAsync l level message fields callerRes now goVer w
          = ⟨["Failed to marshal log: " ++ e], []⟩)
    ∧ (∀ e, w.marshalErr = none → w.requestErr = some e →
        sendLogAsync l level message fields callerRes now goVer w
          = ⟨["Failed to create log request: " ++ e], []⟩)
    ∧ (∀ e, w.marshalErr = none → w.requestErr = none →
        w.transportRes = .transportErr e →
        (sendLogAsync l level message fields callerRes now goVer w).stderrLines
          = ["Failed to send log to ELK: " ++ e])
    ∧ (∀ st, w.marshalErr = none → w.requestErr = none →
        w.transportRes = .response st → 400 ≤ st →
        (sendLogAsync l level message fields callerRes now goVer w).stderrLines
          = ["Logstash returned error: " ++ toString st])
    ∧ (∀ st, w.marshalErr = none → w.requestErr = none →
        w.transportRes = .response st → st < 400 →
        (sendLogAsync l level message fields callerRes now goVer w).stderrLines
          = []) := by
  refine ⟨rfl, ?_, ?_, ?_, ?_, ?_, ?_⟩
  · rcases w with ⟨me, re, tr⟩
    cases me <;> cases re <;> simp [sendLogAsync]
    · cases tr <;> simp
      split <;> simp
  · intro e h; simp [sendLogAsync, h]
  · intro e h1 h2; simp [sendLogAsync, h1, h2]
  · intro e h1 h2 h3; simp [sendLogAsync, h1, h2, h3]
  · intro st h1 h2 h3 h4
    simp [sendLogAsync, h1, h2, h3, if_pos h4]
  · intro st h1 h2 h3 h4
    simp [sendLogAsync, h1, h2, h3, if_neg (by omega : ¬ 400 ≤ st)]

/-- Witness for C6: at the default configuration, a 500 response yields the
one delivery-error line, and a 200 response yields no stderr output. -/
theorem dispatch_failures_local_witness :
    (sendLogAsync sampleLogger "INFO" "m" none none "t" "go" world500).stderrLines
      = ["Logstash returned error: " ++ toString 500]
    ∧ (sendLogAsync sampleLogger "INFO" "m" none none "t" "go" worldOk).stderrLines
      = [] :=
  ⟨(dispatch_failures_local sampleLogger "INFO" "m" none none "t" "go" "c"
      world500 world500).2.2.2.2.2.1 500 rfl rfl rfl (by decide),
   (dispatch_failures_local sampleLogger "INFO" "m" none none "t" "go" "c"
      worldOk worldOk).2.2.2.2.2.2 200 rfl rfl rfl (by decide)⟩

/-- Once the `sync.Once` body has run, further `InitLogger` calls change
nothing and emit nothing: each returns the stored instance. -/
theorem initRuns_done (env : OSEnv) (hostname : String) :
    ∀ (n : Nat) (s : GlobalState), s.onceDone = true →
      initRuns env hostname n s = (s, List.replicate n s.loggerInstance, []) := by
  intro n
  induction n with
  | zero => intro s h; simp [initRuns]
  | succ k ih =>
    intro s h
    simp [initRuns, InitLogger, h, ih s h, List.replicate]

/-- C7. `InitLogger` is idempotent: over any number of (serialized by the
`sync.Once`) invocations, exactly one state object is ever constructed,
exactly one INFO self-test entry naming the resolved endpoint, environment
and hostname is emitted, and every invocation returns that same instance. -/
theorem InitLogger_idempotent (env : OSEnv) (hostname : String) (n : Nat) :
    (initRuns env hostname (n + 1) initialState).1
      = ⟨some (buildLogger env hostname), true⟩
    ∧ (initRuns env hostname (n + 1) initialState).2.1
      = List.replicate (n + 1) (some (buildLogger env hostname))
    ∧ (initRuns env hostname (n + 1) initialState).2.2
      = [("INFO", "Logger initialized on production server",
          selfTestFields (buildLogger env hostname).serverIP
            (buildLogger env hostname).logstashURL
            (buildLogger env hostname).environment
            (buildLogger env hostname).hostname)]
    ∧ (selfTestFields (buildLogger env hostname).serverIP
        (buildLogger env hostname).logstashURL
        (buildLogger env hostname).environment
        (buildLogger env hostname).hostname).lookup "logstash_url"
      = some (GoValue.str (buildLogger env hostname).logstashURL)
    ∧ (selfTestFields (buildLogger env hostname).serverIP
        (buildLogger env hostname).logstashURL
        (buildLogger env hostname).environment
        (buildLogger env hostname).hostname).lookup "environment"
      = some (GoValue.str (buildLogger env hostname).environment)
    ∧ (selfTestFields (buildLogger env hostname).serverIP
        (buildLogger env hostname).logstashURL
        (buildLogger env hostname).environment
        (buildLogger env hostname).hostname).lookup "hostname"
      = some (GoValue.str (buildLogger env hostname).hostname) := by
  have h := initRuns_done env hostname n ⟨some (buildLogger env hostname), true⟩ rfl
  refine ⟨?_, ?_, ?_, ?_, ?_, ?_⟩ <;>
    simp [initRuns, InitLogger, initialState, h, selfTestFields, List.lookup,
      List.replicate]

/-- C8. Accessing the singleton before initialization panics rather than
returning a usable value; after `InitLogger` has run, the accessor returns
the constructed singleton. -/
theorem GetLogger_fatal_before_init (env : OSEnv) (hostname : String) (b : Bool) :
    GetLogger ⟨none, b⟩
      = .panicked "Logger not initialized. Call InitLogger first"
    ∧ GetLogger (InitLogger env hostname initialState).1
      = .ok (buildLogger env hostname) := by
  exact ⟨rfl, rfl⟩

/-- C9. The environment tag comes from `ENVIRONMENT` and defaults to
`"production"` when that variable is unset or empty; the server IP comes
from `SERVER_IP` and falls back to the compiled-in default when unset (or
empty); and once the singleton is built, later `InitLogger` calls leave the
state — and hence these values — untouched for the process lifetime. -/
theorem config_env_defaults (env : OSEnv) (hostname : String) :
    ((env "ENVIRONMENT" = none ∨ env "ENVIRONMENT" = some "") →
      (buildLogger env hostname).environment = "production")
    ∧ (∀ e, env "ENVIRONMENT" = some e → e ≠ "" →
      (buildLogger env hostname).environment = e)
    ∧ (env "SERVER_IP" = none →
      (buildLogger env hostname).serverIP = "147.45.183.143")
    ∧ (∀ ip, env "SERVER_IP" = some ip → ip ≠ "" →
      (buildLogger env hostname).serverIP = ip)
    ∧ (∀ s : GlobalState, s.onceDone = true →
      (InitLogger env hostname s).1 = s) := by
  refine ⟨?_, ?_, ?_, ?_, ?_⟩
  · rintro (h | h) <;> simp [buildLogger, getenv, h]
  · intro e h he
    simp [buildLogger, getenv, h, he]
  · intro h
    simp [buildLogger, getenv, h]
    split <;> rfl
  · intro ip h hip
    simp [buildLogger, getenv, h, hip]
    split <;> rfl
  · intro s h; simp [InitLogger, h]

/-- A concrete environment with `SERVER_IP` set and `ENVIRONMENT` unset. -/
def envSip : OSEnv := fun k => if k = "SERVER_IP" then some "10.0.0.7" else none

/-- Witness for C9: with `ENVIRONMENT` unset and `SERVER_IP` set to
`10.0.0.7`, the tag defaults to production and the override is taken. -/
theorem config_env_defaults_witness :
    (buildLogger envSip "h1").environment = "production"
    ∧ (buildLogger envSip "h1").serverIP = "10.0.0.7" :=
  ⟨(config_env_defaults envSip "h1").1 (Or.inl (by decide)),
   (config_env_defaults envSip "h1").2.2.2.1 "10.0.0.7" (by decide) (by decide)⟩

end ELK
